import Mathlib

/-
  Verification development for the SEO audit engine
  (crawler + technical / on-page / security / performance analyzers,
  mobile scoring and weighted aggregation).

  Shallow embedding conventions:
  * Python strings are Lean Strings; where Python slices or splits text
    character-wise, the embedding works on the underlying character list.
  * Python dict-based records become structures; optional dict entries are
    Option fields; dict.get with a default becomes Option.getD.
  * Python truthiness of a string s (bool(s), "if not s") is
    "s has non-zero length".
  * Network probes (robots.txt, sitemap, the PageSpeed call) are modelled
    by explicit outcome values passed to the analyzer, mirroring the
    try/except structure of the source.
  * Python float arithmetic (used only by calculate_overall_score) is
    modelled exactly: every arithmetic operation on IEEE-754 binary64
    values is correctly rounded, so each operation is "compute the exact
    rational, then round to 53 significant bits, ties to even".  The
    embedding represents float values as exact rationals and applies that
    rounding after every multiplication and addition.
-/

set_option maxRecDepth 40000

/-! ## Python string primitives -/

/-- Truthiness of a Python string: nonempty. -/
def pyStrTruthy (s : String) : Bool := s.data.length != 0

/-- Truthiness of an optional Python string (None and "" are falsy). -/
def pyTruthyOpt (o : Option String) : Bool :=
  match o with
  | none => false
  | some s => pyStrTruthy s

/-- Python dict.get(key, default) for string values. -/
def pyGetD (o : Option String) (d : String) : String := o.getD d

/-- Character-list version of "does the list start with the given list". -/
def isPrefixChars : List Char → List Char → Bool
  | [], _ => true
  | _ :: _, [] => false
  | a :: as, b :: bs => a = b && isPrefixChars as bs

/-- Character-list substring containment. -/
def containsChars (hay needle : List Char) : Bool :=
  match hay with
  | [] => needle.isEmpty
  | _ :: rest => isPrefixChars needle hay || containsChars rest needle

/-- Python str.startswith. -/
def pyStartsWith (s p : String) : Bool := isPrefixChars p.data s.data

/-- Python str.lower (ASCII case folding, which covers all uses here). -/
def pyLower (s : String) : String := ⟨s.data.map Char.toLower⟩

/-- Python "needle in hay" substring test. -/
def pyContains (hay needle : String) : Bool := containsChars hay.data needle.data

/-! ## Crawler text extraction (crawler.py: _get_text_content, _get_word_count)

Text is modelled at the character level: the input is the raw visible text
of the page after the script/style/nav/footer/header subtrees have been
decomposed and the tree flattened with a space separator (the argument of
the source's whitespace clean-up step). -/

/-- Helper for whitespace splitting: accumulates the current word (reversed). -/
def splitWsAux : List Char → List Char → List (List Char)
  | [], acc => if acc.isEmpty then [] else [acc.reverse]
  | c :: rest, acc =>
    if c.isWhitespace then
      if acc.isEmpty then splitWsAux rest [] else acc.reverse :: splitWsAux rest []
    else splitWsAux rest (c :: acc)

/-- Python str.split() with no arguments: split on runs of whitespace,
drop empty tokens. -/
def pySplitWs (cs : List Char) : List (List Char) := splitWsAux cs []

/-- Python " ".join(words). -/
def pyJoinSpace (ws : List (List Char)) : List Char := (ws.intersperse [' ']).flatten

/-- crawler._get_text_content: whitespace-normalize the flattened text,
then keep only the first 10,000 characters. -/
def get_text_content (raw : List Char) : List Char :=
  (pyJoinSpace (pySplitWs raw)).take 10000

/-- crawler._get_word_count: word count of the text returned by
_get_text_content (the source calls self._get_text_content(soup) and splits
its result). -/
def get_word_count (raw : List Char) : Nat :=
  (pySplitWs (get_text_content raw)).length

/-! ## Findings and check results -/

inductive FType
  | error
  | warning
  | recommendation
  | info
deriving DecidableEq

/-- One audit observation (the per-check issue dicts of the source).
Fields that some issue dicts omit are Options. -/
structure Finding where
  ftype : FType
  code : Option String := none
  message : String
  recommendation : Option String := none
  impact : Option String := none
deriving DecidableEq

/-- Result dict of one rule check. -/
structure CheckResult where
  passed : Bool
  issue : Option Finding := none
  deduction : Nat := 0
deriving DecidableEq

/-- The findings an analyzer appends for a check
("if not result passed: issues.append(result issue)"). -/
def issuesOf (r : CheckResult) : List Finding :=
  if r.passed then [] else r.issue.toList

/-- The amount an analyzer subtracts from the score for a check
("if not result passed: score -= result deduction"). -/
def applied (r : CheckResult) : ℤ :=
  if r.passed then 0 else (r.deduction : ℤ)

/-! ## Document model (the page_data dict produced by the crawler)

Only the fields the analyzers read are modelled; headings are carried for the
levels the on-page checks read (h1, h2, h3 — h4 to h6 are never read by any
analyzer), and internal links as their URL list (the analyzers only take
lengths). -/

/-- A raw img element: attributes present or absent. -/
structure ImgTag where
  src : Option String := none
  alt : Option String := none
  loading : Option String := none
  width : Option String := none
  height : Option String := none
deriving DecidableEq

/-- An image record as emitted by crawler._get_images. -/
structure ImageRecord where
  src : String
  alt : String
  has_alt : Bool
  loading : String
  width : String
  height : String
deriving DecidableEq

/-- A script record as emitted by crawler._get_scripts. -/
structure ScriptRecord where
  src : String
  async : Bool := false
  defer : Bool := false
deriving DecidableEq

/-- A stylesheet record as emitted by crawler._get_stylesheets. -/
structure StylesheetRecord where
  href : String
deriving DecidableEq

/-- The page_data dict (the fields the analyzers read). -/
structure PageData where
  url : String
  status_code : Option Nat := none
  redirects : List String := []
  title : Option String := none
  meta_description : Option String := none
  canonical : Option String := none
  robots_meta : Option String := none
  viewport_meta : Bool := false
  og_tags : List (String × String) := []
  h1 : List String := []
  h2 : List String := []
  h3 : List String := []
  internal_links : List String := []
  images : List ImageRecord := []
  word_count : Nat := 0
  scripts : List ScriptRecord := []
  stylesheets : List StylesheetRecord := []
  has_schema : Bool := false
  lang : Option String := none
  small_touch_targets : Nat := 0
  small_text_count : Nat := 0
  horizontal_scroll : Bool := false
deriving DecidableEq

/-! ## Crawler image extraction (crawler.py: _get_images)

URL resolution (urllib's urljoin) is an external library call and is passed
in as a function parameter. -/

/-- The record _get_images builds for one img tag, or none when the tag has
no truthy src. -/
def imageEntry (urljoin : String → String → String) (base_url : String)
    (img : ImgTag) : Option ImageRecord :=
  let src := pyGetD img.src ""
  if pyStrTruthy src then
    some
      { src := urljoin base_url src
        alt := pyGetD img.alt ""
        has_alt := pyTruthyOpt img.alt
        loading := pyGetD img.loading ""
        width := pyGetD img.width ""
        height := pyGetD img.height "" }
  else none

/-- crawler._get_images: collect records for tags with a truthy src, then
keep the first 100. -/
def get_images (urljoin : String → String → String) (base_url : String)
    (imgs : List ImgTag) : List ImageRecord :=
  (imgs.filterMap (imageEntry urljoin base_url)).take 100

/-! ## Exact rationals and IEEE-754 binary64 rounding

A small unnormalized rational type whose operations are structurally
recursive, so that concrete computations reduce in the kernel.  It is used
for the Python float arithmetic of calculate_overall_score: CPython floats
are IEEE-754 binary64 values and every arithmetic operation is correctly
rounded, i.e. "exact rational result, then rounded to 53 significant bits
with ties to even". -/

/-- An unnormalized rational number num / den; den is interpreted as a
positive natural (all constructors below keep it positive). -/
structure Q where
  num : ℤ
  den : ℕ
deriving DecidableEq

def Q.ofInt (n : ℤ) : Q := ⟨n, 1⟩

def Q.lt (a b : Q) : Bool := a.num * b.den < b.num * a.den

def Q.le (a b : Q) : Bool := a.num * b.den ≤ b.num * a.den

def Q.add (a b : Q) : Q := ⟨a.num * b.den + b.num * a.den, a.den * b.den⟩

def Q.mul (a b : Q) : Q := ⟨a.num * b.num, a.den * b.den⟩

def Q.neg (a : Q) : Q := ⟨-a.num, a.den⟩

def Q.sub (a b : Q) : Q := Q.add a (Q.neg b)

/-- Floor of an unnormalized rational (denominator positive). -/
def Q.floor (a : Q) : ℤ := Int.fdiv a.num a.den

/-- Round a rational to the nearest integer, ties to even: the semantics of
CPython's round() applied to a float, and the tie rule of IEEE-754
round-to-nearest. -/
def qRoundHalfEven (q : Q) : ℤ :=
  let f := Q.floor q
  let r := Q.sub q (Q.ofInt f)
  if Q.lt r ⟨1, 2⟩ then f
  else if Q.lt ⟨1, 2⟩ r then f + 1
  else if f % 2 = 0 then f else f + 1

/-- Round a rational to the nearest integer, ties upward (the other rounding
convention the specification allows for the aggregation step). -/
def qRoundHalfUp (q : Q) : ℤ := Q.floor (Q.add q ⟨1, 2⟩)

/-- Two to an integer power, as a rational. -/
def qTwoPow (k : ℤ) : Q := if 0 ≤ k then ⟨2 ^ k.toNat, 1⟩ else ⟨1, 2 ^ (-k).toNat⟩

/-- Scale a positive rational up by two until it reaches 2 ^ 52, recording
the number of doublings. -/
def flScaleUp : ℕ → Q → ℤ → Q × ℤ
  | 0, x, k => (x, k)
  | fuel + 1, x, k =>
    if Q.lt x (Q.ofInt (2 ^ 52)) then flScaleUp fuel (Q.mul x ⟨2, 1⟩) (k + 1) else (x, k)

/-- Scale a positive rational down by two until it is below 2 ^ 53. -/
def flScaleDown : ℕ → Q → ℤ → Q × ℤ
  | 0, x, k => (x, k)
  | fuel + 1, x, k =>
    if Q.le (Q.ofInt (2 ^ 53)) x then flScaleDown fuel (Q.mul x ⟨1, 2⟩) (k - 1) else (x, k)

/-- Correctly rounded binary64 value of a positive rational in the normal
range (the magnitudes arising in the score computation never overflow or
become subnormal): scale into the significand range, round the significand
half-to-even, scale back. -/
def flPos (x : Q) : Q :=
  let u := flScaleUp 2200 x 0
  let v := flScaleDown 2200 u.1 u.2
  Q.mul (Q.ofInt (qRoundHalfEven v.1)) (qTwoPow (-v.2))

/-- Correctly rounded binary64 value of a rational. -/
def fl (x : Q) : Q :=
  if x.num = 0 then Q.ofInt 0
  else if x.num < 0 then Q.neg (flPos (Q.neg x)) else flPos x

/-- One Python float multiplication. -/
def floatMul (a b : Q) : Q := fl (Q.mul a b)

/-- One Python float addition. -/
def floatAdd (a b : Q) : Q := fl (Q.add a b)

/-! ## On-page analyzer (onpage.py) -/

/-- onpage._check_title. -/
def check_title (title : Option String) : CheckResult :=
  if pyTruthyOpt title = false then
    { passed := false
      issue := some
        { ftype := .error, code := some "missing_title"
          message := "Missing title tag"
          recommendation := some "Add a unique, descriptive title tag (50-60 characters)"
          impact := some "high" }
      deduction := 20 }
  else
    let t := pyGetD title ""
    let length := t.data.length
    if length < 30 then
      { passed := false
        issue := some
          { ftype := .warning, code := some "title_too_short"
            message := "Title is too short (" ++ toString length ++ " characters)"
            recommendation := some "Title should be 50-60 characters for optimal display"
            impact := some "medium" }
        deduction := 5 }
    else if length > 60 then
      { passed := false
        issue := some
          { ftype := .warning, code := some "title_too_long"
            message := "Title is too long (" ++ toString length ++ " characters)"
            recommendation := some "Title may be truncated in search results. Keep it under 60 characters"
            impact := some "low" }
        deduction := 3 }
    else { passed := true }

/-- onpage._check_meta_description. -/
def check_meta_description (description : Option String) : CheckResult :=
  if pyTruthyOpt description = false then
    { passed := false
      issue := some
        { ftype := .error, code := some "missing_meta_description"
          message := "Missing meta description"
          recommendation := some "Add a compelling meta description (150-160 characters)"
          impact := some "high" }
      deduction := 15 }
  else
    let d := pyGetD description ""
    let length := d.data.length
    if length < 70 then
      { passed := false
        issue := some
          { ftype := .warning, code := some "meta_description_too_short"
            message := "Meta description is too short (" ++ toString length ++ " characters)"
            recommendation := some "Meta description should be 150-160 characters"
            impact := some "medium" }
        deduction := 5 }
    else if length > 160 then
      { passed := false
        issue := some
          { ftype := .warning, code := some "meta_description_too_long"
            message := "Meta description is too long (" ++ toString length ++ " characters)"
            recommendation := some "Meta description may be truncated. Keep it under 160 characters"
            impact := some "low" }
        deduction := 3 }
    else { passed := true }

/-- onpage._check_h1. -/
def check_h1 (h1s : List String) : CheckResult :=
  if h1s.isEmpty then
    { passed := false
      issue := some
        { ftype := .error, code := some "missing_h1"
          message := "No H1 heading found"
          recommendation := some "Add exactly one H1 heading that describes the page content"
          impact := some "high" }
      deduction := 15 }
  else if h1s.length > 1 then
    { passed := false
      issue := some
        { ftype := .warning, code := some "multiple_h1"
          message := "Multiple H1 headings found (" ++ toString h1s.length ++ ")"
          recommendation := some "Use only one H1 heading per page"
          impact := some "medium" }
      deduction := 5 }
  else { passed := true }

/-- onpage._check_heading_hierarchy. -/
def check_heading_hierarchy (h1s h2s h3s : List String) : CheckResult :=
  let has_h1 := !h1s.isEmpty
  let has_h2 := !h2s.isEmpty
  let has_h3 := !h3s.isEmpty
  if has_h1 = false && (has_h2 || has_h3) then
    { passed := false
      issue := some
        { ftype := .warning, code := some "broken_heading_hierarchy"
          message := "Heading hierarchy is broken (H2/H3 without H1)"
          recommendation := some "Maintain proper heading hierarchy (H1, then H2, then H3)"
          impact := some "medium" }
      deduction := 5 }
  else { passed := true }

/-- onpage._check_images.  The percentage comparison
(missing / total) * 100 > 50 is evaluated exactly (cross-multiplied); for
the list sizes the crawler can produce the float comparison of the source
agrees with the exact one.  The rendered percentage in the message uses
round-half-to-even, matching the ".0f" float format. -/
def check_images (images : List ImageRecord) : CheckResult :=
  if images.isEmpty then { passed := true }
  else
    let missing_alt := images.filter (fun img => img.has_alt = false)
    let missing_count := missing_alt.length
    if missing_count > 0 then
      if 50 * images.length < 100 * missing_count then
        { passed := false
          issue := some
            { ftype := .error, code := some "many_images_missing_alt"
              message := toString missing_count ++ " images missing alt text (" ++
                toString (qRoundHalfEven ⟨100 * missing_count, images.length⟩) ++ "%)"
              recommendation := some "Add descriptive alt text to all images for accessibility and SEO"
              impact := some "high" }
          deduction := 15 }
      else
        { passed := false
          issue := some
            { ftype := .warning, code := some "images_missing_alt"
              message := toString missing_count ++ " images missing alt text"
              recommendation := some "Add descriptive alt text to all images"
              impact := some "medium" }
          deduction := 5 }
    else { passed := true }

/-- onpage._check_content. -/
def check_content (word_count : ℕ) : CheckResult :=
  if word_count < 300 then
    { passed := false
      issue := some
        { ftype := .warning, code := some "thin_content"
          message := "Content is thin (" ++ toString word_count ++ " words)"
          recommendation := some "Add more substantive content (aim for 800+ words for blog posts)"
          impact := some "medium" }
      deduction := 10 }
  else { passed := true }

/-- onpage._check_internal_links. -/
def check_internal_links (internal_links : List String) : CheckResult :=
  if internal_links.length < 2 then
    { passed := false
      issue := some
        { ftype := .warning, code := some "few_internal_links"
          message := "Page has few internal links"
          recommendation := some "Add more internal links to help users and search engines navigate"
          impact := some "medium" }
      deduction := 5 }
  else { passed := true }

/-- onpage._check_og_tags. -/
def check_og_tags (og_tags : List (String × String)) : CheckResult :=
  let keys := og_tags.map Prod.fst
  let missing := ["title", "description", "image"].filter (fun tag => keys.contains tag = false)
  if missing.isEmpty = false then
    { passed := false
      issue := some
        { ftype := .recommendation, code := some "missing_og_tags"
          message := "Missing Open Graph tags: " ++ String.intercalate ", " missing
          recommendation := some "Add Open Graph tags for better social media sharing"
          impact := some "low" }
      deduction := 3 }
  else { passed := true }

structure OnPageChecks where
  title : Bool
  metaDescription : Bool
  h1 : Bool
  headingHierarchy : Bool
  imageAlt : Bool
  contentLength : Bool
  internalLinks : Bool
  openGraph : Bool
deriving DecidableEq

structure OnPageReport where
  score : ℤ
  issues : List Finding
  checks : OnPageChecks
deriving DecidableEq

/-- onpage.OnPageSEOAnalyzer.analyze: run the checks in order, record each
check's passed flag, collect the issues of failing checks and subtract
their deductions from 100, clamping at 0.  (The keyword extraction feeds
only the report's display data, which no claim reads; it is omitted.) -/
def onpage_analyze (page : PageData) : OnPageReport :=
  let title_result := check_title page.title
  let desc_result := check_meta_description page.meta_description
  let h1_result := check_h1 page.h1
  let hierarchy_result := check_heading_hierarchy page.h1 page.h2 page.h3
  let image_result := check_images page.images
  let content_result := check_content page.word_count
  let internal_result := check_internal_links page.internal_links
  let og_result := check_og_tags page.og_tags
  { score := max 0 (100 -
      (applied title_result + applied desc_result + applied h1_result +
       applied hierarchy_result + applied image_result + applied content_result +
       applied internal_result + applied og_result))
    issues := issuesOf title_result ++ issuesOf desc_result ++ issuesOf h1_result ++
      issuesOf hierarchy_result ++ issuesOf image_result ++ issuesOf content_result ++
      issuesOf internal_result ++ issuesOf og_result
    checks :=
      { title := title_result.passed
        metaDescription := desc_result.passed
        h1 := h1_result.passed
        headingHierarchy := hierarchy_result.passed
        imageAlt := image_result.passed
        contentLength := content_result.passed
        internalLinks := internal_result.passed
        openGraph := og_result.passed } }

/-! ## Technical analyzer (technical.py)

The two network probes (robots.txt and the sitemap candidates) and the
path component extraction of urllib's urlparse are external effects; they
enter as explicit parameters. -/

/-- Outcome of one ancillary HTTP GET: the request raised, or returned the
given status with the given content-type header value. -/
inductive HttpOutcome
  | err
  | resp (status : Nat) (contentType : String)
deriving DecidableEq

/-- Environment of technical._check_sitemap: either the surrounding setup
raised (the body of the outer try, outside the per-request try/except), or
the two candidate URLs (/sitemap.xml then /sitemap_index.xml) have the
given outcomes. -/
inductive SitemapEnv
  | setupError
  | probes (first second : HttpOutcome)
deriving DecidableEq

/-- technical._check_canonical; urlPath models urlparse(u).path. -/
def technical_check_canonical (urlPath : String → String) (url : String)
    (page : PageData) : CheckResult :=
  if pyTruthyOpt page.canonical = false then
    { passed := false
      issue := some
        { ftype := .error, code := some "missing_canonical"
          message := "Missing canonical tag"
          recommendation := some "Add a canonical tag to specify the preferred URL for this page"
          impact := some "high" }
      deduction := 15 }
  else if urlPath (pyGetD page.canonical "") ≠ urlPath url then
    { passed := true
      issue := some
        { ftype := .warning, code := some "canonical_mismatch"
          message := "Canonical URL (" ++ pyGetD page.canonical "" ++ ") differs from current URL"
          recommendation := some "Verify this is intentional"
          impact := some "low" }
      deduction := 0 }
  else { passed := true }

/-- technical._check_robots. -/
def check_robots (page : PageData) : CheckResult :=
  let noindex :=
    match page.robots_meta with
    | none => false
    | some robots => pyStrTruthy robots && pyContains (pyLower robots) "noindex"
  if noindex then
    { passed := false
      issue := some
        { ftype := .warning, code := some "noindex"
          message := "Page is set to noindex"
          recommendation := some "Remove noindex if you want this page to be indexed"
          impact := some "high" }
      deduction := 5 }
  else { passed := true }

/-- technical._check_robots_txt: the whole probe sits in one try/except, so
a raised request gives the 3-point error path. -/
def check_robots_txt (probe : HttpOutcome) : CheckResult :=
  match probe with
  | .resp status _ =>
    if status = 200 then { passed := true }
    else
      { passed := false
        issue := some
          { ftype := .warning, code := some "missing_robots_txt"
            message := "robots.txt not found"
            recommendation := some "Add a robots.txt file to control crawler access"
            impact := some "medium" }
        deduction := 5 }
  | .err =>
    { passed := false
      issue := some
        { ftype := .warning, code := some "robots_txt_error"
          message := "Could not access robots.txt"
          impact := some "low" }
      deduction := 3 }

/-- A sitemap candidate counts as found when its request succeeded with
status 200 and an xml content-type. -/
def sitemap_ok (o : HttpOutcome) : Bool :=
  match o with
  | .err => false
  | .resp status contentType => status = 200 && pyContains contentType "xml"

/-- technical._check_sitemap: each candidate request has its own
try/except whose except clause is "continue", so raised requests fall
through to the 5-point missing_sitemap result; only a failure of the
surrounding setup reaches the outer except with its 3-point result. -/
def check_sitemap (env : SitemapEnv) : CheckResult :=
  match env with
  | .setupError =>
    { passed := false
      issue := some { ftype := .error, message := "Sitemap check failed" }
      deduction := 3 }
  | .probes first second =>
    if sitemap_ok first || sitemap_ok second then { passed := true }
    else
      { passed := false
        issue := some
          { ftype := .warning, code := some "missing_sitemap"
            message := "XML sitemap not found"
            recommendation := some "Add an XML sitemap to help search engines discover your pages"
            impact := some "medium" }
        deduction := 5 }

/-- technical._check_https. -/
def technical_check_https (url : String) : CheckResult :=
  if pyStartsWith url "https://" = false then
    { passed := false
      issue := some
        { ftype := .error, code := some "no_https"
          message := "Site is not using HTTPS"
          recommendation := some "Migrate to HTTPS for security and SEO benefits"
          impact := some "high" }
      deduction := 20 }
  else { passed := true }

/-- technical._check_redirects. -/
def check_redirects (page : PageData) : CheckResult :=
  if page.redirects.length > 2 then
    { passed := false
      issue := some
        { ftype := .warning, code := some "redirect_chain"
          message := "Redirect chain detected (" ++ toString page.redirects.length ++ " redirects)"
          recommendation := some "Reduce redirect chain to a single redirect"
          impact := some "medium" }
      deduction := 10 }
  else { passed := true }

/-- technical._check_status_code ("if status and status >= 400"). -/
def check_status_code (page : PageData) : CheckResult :=
  let bad :=
    match page.status_code with
    | none => false
    | some status => status ≠ 0 && 400 ≤ status
  match page.status_code, bad with
  | some status, true =>
    { passed := false
      issue := some
        { ftype := .error, code := some "error_status"
          message := "Page returned status code " ++ toString status
          impact := some "high" }
      deduction := 30 }
  | _, _ => { passed := true }

/-- technical._check_language. -/
def check_language (page : PageData) : CheckResult :=
  if pyTruthyOpt page.lang = false then
    { passed := false
      issue := some
        { ftype := .warning, code := some "missing_lang"
          message := "Missing language attribute on HTML tag"
          recommendation := some "Add lang attribute to help search engines understand the page language"
          impact := some "low" }
      deduction := 3 }
  else { passed := true }

/-- technical._check_schema. -/
def check_schema (page : PageData) : CheckResult :=
  if page.has_schema = false then
    { passed := false
      issue := some
        { ftype := .recommendation, code := some "no_structured_data"
          message := "No structured data (Schema.org) found"
          recommendation := some "Add structured data to enhance search results appearance"
          impact := some "medium" }
      deduction := 5 }
  else { passed := true }

structure TechChecks where
  canonical : Bool
  robotsMeta : Bool
  robotsTxt : Bool
  sitemap : Bool
  https : Bool
  redirectChain : Bool
  statusCode : Bool
  language : Bool
  structuredData : Bool
deriving DecidableEq

structure TechReport where
  score : ℤ
  issues : List Finding
  checks : TechChecks
deriving DecidableEq

/-- technical.TechnicalSEOAnalyzer.analyze (the data dict of the report is
display-only and is omitted). -/
def technical_analyze (urlPath : String → String) (robots_txt_probe : HttpOutcome)
    (sitemap_env : SitemapEnv) (url : String) (page : PageData) : TechReport :=
  let canonical_result := technical_check_canonical urlPath url page
  let robots_result := check_robots page
  let robots_txt_result := check_robots_txt robots_txt_probe
  let sitemap_result := check_sitemap sitemap_env
  let https_result := technical_check_https url
  let redirect_result := check_redirects page
  let status_result := check_status_code page
  let lang_result := check_language page
  let schema_result := check_schema page
  { score := max 0 (100 -
      (applied canonical_result + applied robots_result + applied robots_txt_result +
       applied sitemap_result + applied https_result + applied redirect_result +
       applied status_result + applied lang_result + applied schema_result))
    issues := issuesOf canonical_result ++ issuesOf robots_result ++
      issuesOf robots_txt_result ++ issuesOf sitemap_result ++ issuesOf https_result ++
      issuesOf redirect_result ++ issuesOf status_result ++ issuesOf lang_result ++
      issuesOf schema_result
    checks :=
      { canonical := canonical_result.passed
        robotsMeta := robots_result.passed
        robotsTxt := robots_txt_result.passed
        sitemap := sitemap_result.passed
        https := https_result.passed
        redirectChain := redirect_result.passed
        statusCode := status_result.passed
        language := lang_result.passed
        structuredData := schema_result.passed } }

/-! ## Security analyzer: mixed content (security.py: _check_mixed_content) -/

/-- security._check_mixed_content: on an https page (by the document
model's own url), count images, scripts and stylesheets whose resource URL
starts with "http://". -/
def check_mixed_content (page : PageData) : CheckResult :=
  if pyStartsWith page.url "https://" = false then { passed := true }
  else
    let http_images := page.images.filter (fun img => pyStartsWith img.src "http://")
    let http_scripts := page.scripts.filter (fun s => pyStartsWith s.src "http://")
    let http_styles := page.stylesheets.filter (fun s => pyStartsWith s.href "http://")
    let total_mixed := http_images.length + http_scripts.length + http_styles.length
    if total_mixed > 0 then
      { passed := false
        issue := some
          { ftype := .error, code := some "mixed_content"
            message := "Mixed content detected (" ++ toString total_mixed ++
              " HTTP resources on HTTPS page)"
            recommendation := some "Update all resources to use HTTPS"
            impact := some "high" }
        deduction := 15 }
    else { passed := true }

/-! ## Performance analyzer (performance.py)

The PageSpeed call is external: the analyzer receives the configured API
key (os.getenv default "") and the outcome of the provider call.  Numeric
audit values from the provider's JSON are exact rationals here; the
success-path threshold comparisons are not exercised by any claim. -/

/-- One Lighthouse audit dict (audits.get(name, {}) gives none for an
absent audit). -/
structure Metric where
  numericValue : Option ℚ := none
  displayValue : Option String := none
  score : Option ℚ := none
deriving DecidableEq

/-- The audits the analyzer reads. -/
structure Audits where
  largest_contentful_paint : Option Metric := none
  max_potential_fid : Option Metric := none
  cumulative_layout_shift : Option Metric := none
  first_contentful_paint : Option Metric := none
  server_response_time : Option Metric := none
  uses_optimized_images : Option Metric := none
  total_byte_weight : Option Metric := none
  offscreen_images : Option Metric := none
deriving DecidableEq

/-- Parsed provider payload: the performance category score (none when the
category or its score is absent or null) and the audits. -/
structure PerfData where
  performance_category_score : Option ℚ := none
  audits : Audits := {}
deriving DecidableEq

/-- Outcome of the provider call: the request (or response parsing) raised,
or a response with the given status arrived and parsed to the given data. -/
inductive PerfCall
  | raised
  | resp (status : Nat) (data : PerfData)
deriving DecidableEq

structure PerfChecks where
  lcp : Option Bool
  cls : Option Bool
  fcp : Option Bool
  imageOptimization : Option Bool
  bundleSize : Option Bool
  lazyLoading : Option Bool
deriving DecidableEq

structure PerfReport where
  score : ℤ
  issues : List Finding
  checks : PerfChecks
deriving DecidableEq

/-- Python "(x or 0)" for an optional number. -/
def orZero (o : Option ℚ) : ℚ :=
  match o with
  | none => 0
  | some q => if q = 0 then 0 else q

/-- Python int(): truncation toward zero. -/
def pyInt (q : ℚ) : ℤ := if q < 0 then -⌊-q⌋ else ⌊q⌋

/-- metric.get(field, default) through an optional audit dict. -/
def metricGet (o : Option Metric) (f : Metric → Option ℚ) (d : ℚ) : ℚ :=
  match o with
  | none => d
  | some m => (f m).getD d

/-- Python str() of an optional display value (None prints as "None"). -/
def displayStr (o : Option String) : String :=
  match o with
  | none => "None"
  | some s => s

/-- performance._get_fallback_analysis. -/
def get_fallback_analysis : PerfReport :=
  { score := 50
    issues :=
      [{ ftype := .info, code := some "pagespeed_unavailable"
         message := "PageSpeed Insights API not available"
         recommendation := some "Configure PAGESPEED_API_KEY for detailed performance analysis"
         impact := some "low" }]
    checks := { lcp := none, cls := none, fcp := none, imageOptimization := none,
                bundleSize := none, lazyLoading := none } }

/-- The successful branch of performance.analyze (status 200, parsed body). -/
def performance_success (d : PerfData) : PerfReport :=
  let performance_score := pyInt (orZero d.performance_category_score * 100)
  let lcp := d.audits.largest_contentful_paint
  let cls := d.audits.cumulative_layout_shift
  let fcp := d.audits.first_contentful_paint
  let lcpIssue : Option Finding :=
    match lcp with
    | none => none
    | some m =>
      if m.numericValue.getD 0 > 2500 then
        some { ftype := .error, code := some "slow_lcp"
               message := "Largest Contentful Paint is slow (" ++ displayStr m.displayValue ++ ")"
               recommendation := some "Optimize images, remove render-blocking resources"
               impact := some "high" }
      else none
  let clsIssue : Option Finding :=
    match cls with
    | none => none
    | some m =>
      if m.numericValue.getD 0 > 1/10 then
        some { ftype := .warning, code := some "high_cls"
               message := "Cumulative Layout Shift is high (" ++ displayStr m.displayValue ++ ")"
               recommendation := some "Specify image dimensions, avoid dynamic content insertion"
               impact := some "medium" }
      else none
  let fcpIssue : Option Finding :=
    match fcp with
    | none => none
    | some m =>
      if m.numericValue.getD 0 > 1800 then
        some { ftype := .warning, code := some "slow_fcp"
               message := "First Contentful Paint is slow (" ++ displayStr m.displayValue ++ ")"
               recommendation := some "Reduce server response time, optimize critical rendering path"
               impact := some "medium" }
      else none
  let imgBad := metricGet d.audits.uses_optimized_images (fun m => m.score) 1 < 9/10
  let imgIssue : Option Finding :=
    if imgBad then
      some { ftype := .warning, code := some "unoptimized_images"
             message := "Images are not optimized"
             recommendation := some "Compress images and use modern formats (WebP)"
             impact := some "medium" }
    else none
  let bundleBad := metricGet d.audits.total_byte_weight (fun m => m.numericValue) 0 > 2000000
  let bundleIssue : Option Finding :=
    if bundleBad then
      some { ftype := .warning, code := some "large_bundle"
             message := "Page size is too large"
             recommendation := some "Reduce JavaScript bundle size, lazy load non-critical resources"
             impact := some "medium" }
    else none
  { score := performance_score
    issues := lcpIssue.toList ++ clsIssue.toList ++ fcpIssue.toList ++
      imgIssue.toList ++ bundleIssue.toList
    checks :=
      { lcp := some lcpIssue.isNone
        cls := some clsIssue.isNone
        fcp := some fcpIssue.isNone
        imageOptimization := some (!imgBad : Bool)
        bundleSize := some (!bundleBad : Bool)
        lazyLoading := some (decide (metricGet d.audits.offscreen_images (fun m => m.score) 0 ≥ 9/10)) } }

/-- performance.PerformanceAnalyzer.analyze: fall back when no API key is
configured, when the provider call raises, or when it returns non-200. -/
def performance_analyze (api_key : String) (call : PerfCall) : PerfReport :=
  if pyStrTruthy api_key = false then get_fallback_analysis
  else
    match call with
    | .raised => get_fallback_analysis
    | .resp status d => if status ≠ 200 then get_fallback_analysis else performance_success d

/-! ## Mobile score (main.py: calculate_mobile_score) -/

structure MobileChecks where
  viewportMeta : Bool
  touchTargets : Bool
  readableText : Bool
  noHorizontalScroll : Bool
deriving DecidableEq

structure MobileReport where
  score : ℤ
  issues : List Finding
  checks : MobileChecks
deriving DecidableEq

/-- The score of calculate_mobile_score before the final max(0, score):
100 minus the four conditional deductions, in source order. -/
def mobile_pre_score (page : PageData) : ℤ :=
  100 -
    (if page.viewport_meta = false then 20 else 0) -
    (if page.small_touch_targets > 0 then min ((page.small_touch_targets : ℤ) * 2) 15 else 0) -
    (if page.small_text_count > 5 then 10 else 0) -
    (if page.horizontal_scroll then 15 else 0)

/-- main.calculate_mobile_score.  The performance argument is accepted and
ignored, exactly as in the source. -/
def calculate_mobile_score (page : PageData) (performance : PerfReport) : MobileReport :=
  let small_buttons := page.small_touch_targets
  let issues :=
    (if page.viewport_meta = false then
      [{ ftype := FType.error, message := "Missing viewport meta tag", impact := some "high" }]
     else []) ++
    (if small_buttons > 0 then
      [{ ftype := FType.warning
         message := toString small_buttons ++ " touch targets are too small"
         impact := some "medium" }]
     else []) ++
    (if page.small_text_count > 5 then
      [{ ftype := FType.warning, message := "Text too small to read on mobile"
         impact := some "medium" }]
     else []) ++
    (if page.horizontal_scroll then
      [{ ftype := FType.error, message := "Content wider than screen", impact := some "high" }]
     else [])
  { score := max 0 (mobile_pre_score page)
    issues := issues
    checks :=
      { viewportMeta := page.viewport_meta
        touchTargets := small_buttons == 0
        readableText := decide (page.small_text_count ≤ 5)
        noHorizontalScroll := !page.horizontal_scroll } }

/-! ## Aggregator (main.py: calculate_overall_score) -/

/-- The weight dict entries: binary64 values of the literals 0.25, 0.25,
0.25, 0.10, 0.15. -/
def w_technical : Q := fl ⟨25, 100⟩

def w_onpage : Q := fl ⟨25, 100⟩

def w_performance : Q := fl ⟨25, 100⟩

def w_security : Q := fl ⟨10, 100⟩

def w_mobile : Q := fl ⟨15, 100⟩

/-- The weighted sum of calculate_overall_score as Python evaluates it:
left-associated float additions of the five float products. -/
def float_weighted_sum (technical onpage performance security mobile : ℤ) : Q :=
  floatAdd
    (floatAdd
      (floatAdd
        (floatAdd (floatMul (Q.ofInt technical) w_technical)
          (floatMul (Q.ofInt onpage) w_onpage))
        (floatMul (Q.ofInt performance) w_performance))
      (floatMul (Q.ofInt security) w_security))
    (floatMul (Q.ofInt mobile) w_mobile)

/-- main.calculate_overall_score: round(score) with CPython's
round-half-to-even on the float weighted sum. -/
def calculate_overall_score (technical onpage performance security mobile : ℤ) : ℤ :=
  qRoundHalfEven (float_weighted_sum technical onpage performance security mobile)

/-- The exact weighted sum the specification states, with no float
rounding (spec-side definition, for comparison with the code's value). -/
def exact_weighted_sum (technical onpage performance security mobile : ℤ) : Q :=
  Q.add
    (Q.add
      (Q.add
        (Q.add (Q.mul (Q.ofInt technical) ⟨25, 100⟩) (Q.mul (Q.ofInt onpage) ⟨25, 100⟩))
        (Q.mul (Q.ofInt performance) ⟨25, 100⟩))
      (Q.mul (Q.ofInt security) ⟨10, 100⟩))
    (Q.mul (Q.ofInt mobile) ⟨15, 100⟩)

/-! ## Helper lemmas -/

theorem applied_nonneg (r : CheckResult) : 0 ≤ applied r := by
  unfold applied
  split
  · exact le_refl 0
  · exact Int.natCast_nonneg r.deduction

theorem applied_eq_zero (r : CheckResult) (h : r.passed = true) : applied r = 0 := by
  unfold applied
  simp [h]

theorem pyStrTruthy_iff (s : String) : pyStrTruthy s = true ↔ s ≠ "" := by
  cases s with
  | mk data =>
    simp only [pyStrTruthy, bne_iff_ne, ne_eq, String.ext_iff]
    constructor
    · intro h h2
      exact h (by rw [h2]; rfl)
    · intro h h2
      exact h (List.length_eq_zero.mp h2)

/-! ## C1: word count versus truncation -/

/-- A cleaned text longer than 10,000 characters: 1001 words of nine
letters each, space separated (10,009 characters once normalized). -/
def exC1 : List Char := (List.replicate 1001 "aaaaaaaaa ".toList).flatten

/-- C1 counterexample: for this text the stored word count is 1000, the
token count of the full cleaned text is 1001 — the count is taken after
the 10,000-character truncation, not before. -/
theorem c1_counterexample :
    get_word_count exC1 = 1000 ∧
    (pySplitWs (pyJoinSpace (pySplitWs exC1))).length = 1001 := by
  constructor
  · decide
  · decide

/-- C1 (amended): wordCount is the number of whitespace-delimited tokens of
the stored, truncated textContent; it agrees with the token count of the
full cleaned text exactly when the cleaned text fits in 10,000 characters. -/
theorem c1_word_count_truncated :
    ∀ raw : List Char,
      get_word_count raw = (pySplitWs (get_text_content raw)).length ∧
      ((pyJoinSpace (pySplitWs raw)).length ≤ 10000 →
        get_word_count raw = (pySplitWs (pyJoinSpace (pySplitWs raw))).length) := by
  intro raw
  refine ⟨rfl, fun h => ?_⟩
  unfold get_word_count get_text_content
  rw [List.take_of_length_le h]

/-- A short cleaned text. -/
def exC1small : List Char := "seo audit engine word count".toList

theorem c1_word_count_truncated_witness :
    (pyJoinSpace (pySplitWs exC1small)).length ≤ 10000 ∧
    get_word_count exC1small = (pySplitWs (pyJoinSpace (pySplitWs exC1small))).length :=
  ⟨by decide, (c1_word_count_truncated exC1small).2 (by decide)⟩

/-! ## C2: hasAlt and empty alt attributes -/

/-- An img tag carrying an alt attribute whose value is the empty string. -/
def tagEmptyAlt : ImgTag :=
  { src := some "https://example.com/a.png", alt := some "" }

/-- C2 counterexample: the tag carries an alt attribute (value ""), yet the
extracted record has has_alt = false, because the source computes
bool(img.get('alt')) and the empty string is falsy. -/
theorem c2_counterexample :
    tagEmptyAlt.alt = some "" ∧
    (get_images (fun _ s => s) "https://example.com/" [tagEmptyAlt]).map
      (fun r => r.has_alt) = [false] := by
  constructor
  · rfl
  · decide

/-- C2 (amended): for every record _get_images emits, has_alt is true iff
the img element carries an alt attribute with a NON-EMPTY value; and every
emitted record comes from some input tag via imageEntry. -/
theorem c2_has_alt_nonempty :
    (∀ (urljoin : String → String → String) (base_url : String) (img : ImgTag)
        (r : ImageRecord), imageEntry urljoin base_url img = some r →
        (r.has_alt = true ↔ ∃ s, img.alt = some s ∧ s ≠ "")) ∧
    (∀ (urljoin : String → String → String) (base_url : String) (imgs : List ImgTag)
        (r : ImageRecord), r ∈ get_images urljoin base_url imgs →
        ∃ img ∈ imgs, imageEntry urljoin base_url img = some r) := by
  constructor
  · intro urljoin base_url img r h
    unfold imageEntry at h
    by_cases hsrc : pyStrTruthy (pyGetD img.src "") = true
    · rw [if_pos hsrc] at h
      have hr : r.has_alt = pyTruthyOpt img.alt := by
        cases h
        rfl
      rw [hr]
      cases halt : img.alt with
      | none => simp [pyTruthyOpt]
      | some s =>
        simp only [pyTruthyOpt, pyStrTruthy_iff]
        constructor
        · intro hs
          exact ⟨s, rfl, hs⟩
        · rintro ⟨t, ht, hts⟩
          cases ht
          exact hts
    · rw [if_neg hsrc] at h
      exact absurd h (by simp)
  · intro urljoin base_url imgs r h
    unfold get_images at h
    have h2 : r ∈ imgs.filterMap (imageEntry urljoin base_url) :=
      List.take_subset _ _ h
    exact List.mem_filterMap.mp h2

/-- An img tag with a non-empty alt attribute and its extracted record. -/
def tagWithAlt : ImgTag :=
  { src := some "https://example.com/b.png", alt := some "logo" }

def recWithAlt : ImageRecord :=
  { src := "https://example.com/b.png", alt := "logo", has_alt := true
    loading := "", width := "", height := "" }

theorem c2_has_alt_nonempty_witness :
    recWithAlt.has_alt = true ↔ ∃ s, tagWithAlt.alt = some s ∧ s ≠ "" :=
  c2_has_alt_nonempty.1 (fun _ s => s) "https://example.com/" tagWithAlt recWithAlt
    (by decide)

/-! ## C3: weighted aggregation -/

/-- C3 counterexample: with components (0, 0, 0, 1, 36) — all in [0,100] —
the code returns 5, while rounding the exact weighted sum 5.5 gives 6 under
both rounding conventions the specification allows: the binary64 evaluation
of the sum is slightly below 5.5, so the claimed formula does not hold. -/
theorem c3_counterexample :
    calculate_overall_score 0 0 0 1 36 = 5 ∧
    qRoundHalfEven (exact_weighted_sum 0 0 0 1 36) = 6 ∧
    qRoundHalfUp (exact_weighted_sum 0 0 0 1 36) = 6 := by
  refine ⟨by decide, by decide, by decide⟩

/-- C3 (amended): for all component scores the aggregator returns the
half-to-even rounding of the weighted sum as evaluated in binary64 floating
point (which can differ from rounding the exact weighted sum at tie
boundaries); in particular, when all five components equal 80 the overall
score is exactly 80. -/
theorem c3_weighted_aggregation :
    (∀ technical onpage performance security mobile : ℤ,
      calculate_overall_score technical onpage performance security mobile =
        qRoundHalfEven (float_weighted_sum technical onpage performance security mobile)) ∧
    calculate_overall_score 80 80 80 80 80 = 80 :=
  ⟨fun _ _ _ _ _ => rfl, by decide⟩

/-! ## C4: title length boundaries -/

/-- C4: a 30-character title passes; a 29-character title fails with
title_too_short and deduction 5; a 60-character title passes; a
61-character title fails with title_too_long and deduction 3; an absent
title fails with deduction 20. -/
theorem c4_title_boundaries :
    (∀ t : String, t.data.length = 30 → check_title (some t) = { passed := true }) ∧
    (∀ t : String, t.data.length = 29 →
      (check_title (some t)).passed = false ∧ (check_title (some t)).deduction = 5 ∧
      ∃ iss, (check_title (some t)).issue = some iss ∧ iss.code = some "title_too_short") ∧
    (∀ t : String, t.data.length = 60 → check_title (some t) = { passed := true }) ∧
    (∀ t : String, t.data.length = 61 →
      (check_title (some t)).passed = false ∧ (check_title (some t)).deduction = 3 ∧
      ∃ iss, (check_title (some t)).issue = some iss ∧ iss.code = some "title_too_long") ∧
    ((check_title none).passed = false ∧ (check_title none).deduction = 20) := by
  refine ⟨?_, ?_, ?_, ?_, ?_, ?_⟩
  · intro t h
    simp [check_title, pyTruthyOpt, pyStrTruthy, pyGetD, h]
  · intro t h
    simp [check_title, pyTruthyOpt, pyStrTruthy, pyGetD, h]
  · intro t h
    simp [check_title, pyTruthyOpt, pyStrTruthy, pyGetD, h]
  · intro t h
    simp [check_title, pyTruthyOpt, pyStrTruthy, pyGetD, h]
  · rfl
  · rfl

def title30 : String := ⟨List.replicate 30 'a'⟩

def title29 : String := ⟨List.replicate 29 'a'⟩

def title60 : String := ⟨List.replicate 60 'a'⟩

def title61 : String := ⟨List.replicate 61 'a'⟩

theorem c4_title_boundaries_witness :
    check_title (some title30) = { passed := true } ∧
    ((check_title (some title29)).passed = false ∧
      (check_title (some title29)).deduction = 5 ∧
      ∃ iss, (check_title (some title29)).issue = some iss ∧
        iss.code = some "title_too_short") ∧
    check_title (some title60) = { passed := true } ∧
    ((check_title (some title61)).passed = false ∧
      (check_title (some title61)).deduction = 3 ∧
      ∃ iss, (check_title (some title61)).issue = some iss ∧
        iss.code = some "title_too_long") :=
  ⟨c4_title_boundaries.1 title30 (by decide),
   c4_title_boundaries.2.1 title29 (by decide),
   c4_title_boundaries.2.2.1 title60 (by decide),
   c4_title_boundaries.2.2.2.1 title61 (by decide)⟩

/-! ## C5: mixed content -/

/-- C5: on an https page (by the document model's url) with exactly one
http:// image and no http:// scripts or stylesheets, the check fails with
mixed_content, deduction 15 and a message reporting a total of 1; on a
non-https page the check passes whatever the resource schemes are. -/
theorem c5_mixed_content :
    (∀ page : PageData,
      pyStartsWith page.url "https://" = true →
      (page.images.filter (fun img => pyStartsWith img.src "http://")).length = 1 →
      (page.scripts.filter (fun s => pyStartsWith s.src "http://")).length = 0 →
      (page.stylesheets.filter (fun s => pyStartsWith s.href "http://")).length = 0 →
      check_mixed_content page =
        { passed := false
          issue := some
            { ftype := .error, code := some "mixed_content"
              message := "Mixed content detected (1 HTTP resources on HTTPS page)"
              recommendation := some "Update all resources to use HTTPS"
              impact := some "high" }
          deduction := 15 }) ∧
    (∀ page : PageData, pyStartsWith page.url "https://" = false →
      check_mixed_content page = { passed := true }) := by
  constructor
  · intro page hurl hi hs hc
    unfold check_mixed_content
    rw [hurl]
    simp only [Bool.true_eq_false, if_false, hi, hs, hc]
    rfl
  · intro page hurl
    unfold check_mixed_content
    rw [hurl]
    rfl

/-- An https page with one http image. -/
def pageOneHttpImage : PageData :=
  { url := "https://example.com/"
    images := [{ src := "http://example.com/i.png", alt := "", has_alt := false
                 loading := "", width := "", height := "" }] }

/-- A plain-http page with an http image. -/
def pageHttpPlain : PageData :=
  { url := "http://example.com/"
    images := [{ src := "http://example.com/i.png", alt := "", has_alt := false
                 loading := "", width := "", height := "" }] }

theorem c5_mixed_content_witness :
    check_mixed_content pageOneHttpImage =
      { passed := false
        issue := some
          { ftype := .error, code := some "mixed_content"
            message := "Mixed content detected (1 HTTP resources on HTTPS page)"
            recommendation := some "Update all resources to use HTTPS"
            impact := some "high" }
        deduction := 15 } ∧
    check_mixed_content pageHttpPlain = { passed := true } :=
  ⟨c5_mixed_content.1 pageOneHttpImage (by decide) (by decide) (by decide) (by decide),
   c5_mixed_content.2 pageHttpPlain (by decide)⟩

/-! ## C6: performance fallback -/

/-- C6: whenever the metrics provider is unavailable — no credential, the
call raises, or a non-200 response — the performance report has score 50,
every check null, and exactly one finding, of type info. -/
theorem c6_fallback (api_key : String) (call : PerfCall)
    (h : pyStrTruthy api_key = false ∨ call = PerfCall.raised ∨
      ∃ status d, call = PerfCall.resp status d ∧ status ≠ 200) :
    (performance_analyze api_key call).score = 50 ∧
    (performance_analyze api_key call).checks =
      { lcp := none, cls := none, fcp := none, imageOptimization := none
        bundleSize := none, lazyLoading := none } ∧
    (performance_analyze api_key call).issues.length = 1 ∧
    ∀ f ∈ (performance_analyze api_key call).issues, f.ftype = FType.info := by
  have hfb : performance_analyze api_key call = get_fallback_analysis := by
    rcases h with h | h | ⟨status, d, hcall, hstatus⟩
    · simp [performance_analyze, h]
    · subst h
      by_cases hk : pyStrTruthy api_key = false <;> simp [performance_analyze, hk]
    · subst hcall
      by_cases hk : pyStrTruthy api_key = false <;>
        simp [performance_analyze, hk, hstatus]
  rw [hfb]
  refine ⟨rfl, rfl, rfl, ?_⟩
  intro f hf
  have : f = { ftype := .info, code := some "pagespeed_unavailable"
               message := "PageSpeed Insights API not available"
               recommendation := some "Configure PAGESPEED_API_KEY for detailed performance analysis"
               impact := some "low" } := by
    simpa [get_fallback_analysis] using hf
  rw [this]

theorem c6_fallback_witness :
    (performance_analyze "" (PerfCall.resp 200 {})).score = 50 ∧
    (performance_analyze "" (PerfCall.resp 200 {})).checks =
      { lcp := none, cls := none, fcp := none, imageOptimization := none
        bundleSize := none, lazyLoading := none } ∧
    (performance_analyze "" (PerfCall.resp 200 {})).issues.length = 1 ∧
    ∀ f ∈ (performance_analyze "" (PerfCall.resp 200 {})).issues, f.ftype = FType.info :=
  c6_fallback "" (PerfCall.resp 200 {}) (Or.inl (by decide))

/-! ## C7: deductions are monotonic -/

def onpage_checks_all : OnPageChecks :=
  { title := true, metaDescription := true, h1 := true, headingHierarchy := true
    imageAlt := true, contentLength := true, internalLinks := true, openGraph := true }

def tech_checks_all : TechChecks :=
  { canonical := true, robotsMeta := true, robotsTxt := true, sitemap := true
    https := true, redirectChain := true, statusCode := true, language := true
    structuredData := true }

theorem onpage_score_le (p : PageData) : (onpage_analyze p).score ≤ 100 := by
  have h1 := applied_nonneg (check_title p.title)
  have h2 := applied_nonneg (check_meta_description p.meta_description)
  have h3 := applied_nonneg (check_h1 p.h1)
  have h4 := applied_nonneg (check_heading_hierarchy p.h1 p.h2 p.h3)
  have h5 := applied_nonneg (check_images p.images)
  have h6 := applied_nonneg (check_content p.word_count)
  have h7 := applied_nonneg (check_internal_links p.internal_links)
  have h8 := applied_nonneg (check_og_tags p.og_tags)
  show max 0 (100 -
      (applied (check_title p.title) + applied (check_meta_description p.meta_description) +
       applied (check_h1 p.h1) + applied (check_heading_hierarchy p.h1 p.h2 p.h3) +
       applied (check_images p.images) + applied (check_content p.word_count) +
       applied (check_internal_links p.internal_links) + applied (check_og_tags p.og_tags))) ≤ 100
  omega

theorem onpage_score_all_pass (p : PageData)
    (h : (onpage_analyze p).checks = onpage_checks_all) : (onpage_analyze p).score = 100 := by
  have h1 : (check_title p.title).passed = true := congrArg OnPageChecks.title h
  have h2 : (check_meta_description p.meta_description).passed = true :=
    congrArg OnPageChecks.metaDescription h
  have h3 : (check_h1 p.h1).passed = true := congrArg OnPageChecks.h1 h
  have h4 : (check_heading_hierarchy p.h1 p.h2 p.h3).passed = true :=
    congrArg OnPageChecks.headingHierarchy h
  have h5 : (check_images p.images).passed = true := congrArg OnPageChecks.imageAlt h
  have h6 : (check_content p.word_count).passed = true :=
    congrArg OnPageChecks.contentLength h
  have h7 : (check_internal_links p.internal_links).passed = true :=
    congrArg OnPageChecks.internalLinks h
  have h8 : (check_og_tags p.og_tags).passed = true := congrArg OnPageChecks.openGraph h
  show max 0 (100 -
      (applied (check_title p.title) + applied (check_meta_description p.meta_description) +
       applied (check_h1 p.h1) + applied (check_heading_hierarchy p.h1 p.h2 p.h3) +
       applied (check_images p.images) + applied (check_content p.word_count) +
       applied (check_internal_links p.internal_links) + applied (check_og_tags p.og_tags))) = 100
  rw [applied_eq_zero _ h1, applied_eq_zero _ h2, applied_eq_zero _ h3,
    applied_eq_zero _ h4, applied_eq_zero _ h5, applied_eq_zero _ h6,
    applied_eq_zero _ h7, applied_eq_zero _ h8]
  rfl

theorem technical_score_le (urlPath : String → String) (rt : HttpOutcome)
    (sm : SitemapEnv) (url : String) (p : PageData) :
    (technical_analyze urlPath rt sm url p).score ≤ 100 := by
  have h1 := applied_nonneg (technical_check_canonical urlPath url p)
  have h2 := applied_nonneg (check_robots p)
  have h3 := applied_nonneg (check_robots_txt rt)
  have h4 := applied_nonneg (check_sitemap sm)
  have h5 := applied_nonneg (technical_check_https url)
  have h6 := applied_nonneg (check_redirects p)
  have h7 := applied_nonneg (check_status_code p)
  have h8 := applied_nonneg (check_language p)
  have h9 := applied_nonneg (check_schema p)
  show max 0 (100 -
      (applied (technical_check_canonical urlPath url p) + applied (check_robots p) +
       applied (check_robots_txt rt) + applied (check_sitemap sm) +
       applied (technical_check_https url) + applied (check_redirects p) +
       applied (check_status_code p) + applied (check_language p) +
       applied (check_schema p))) ≤ 100
  omega

theorem technical_score_all_pass (urlPath : String → String) (rt : HttpOutcome)
    (sm : SitemapEnv) (url : String) (p : PageData)
    (h : (technical_analyze urlPath rt sm url p).checks = tech_checks_all) :
    (technical_analyze urlPath rt sm url p).score = 100 := by
  have h1 : (technical_check_canonical urlPath url p).passed = true :=
    congrArg TechChecks.canonical h
  have h2 : (check_robots p).passed = true := congrArg TechChecks.robotsMeta h
  have h3 : (check_robots_txt rt).passed = true := congrArg TechChecks.robotsTxt h
  have h4 : (check_sitemap sm).passed = true := congrArg TechChecks.sitemap h
  have h5 : (technical_check_https url).passed = true := congrArg TechChecks.https h
  have h6 : (check_redirects p).passed = true := congrArg TechChecks.redirectChain h
  have h7 : (check_status_code p).passed = true := congrArg TechChecks.statusCode h
  have h8 : (check_language p).passed = true := congrArg TechChecks.language h
  have h9 : (check_schema p).passed = true := congrArg TechChecks.structuredData h
  show max 0 (100 -
      (applied (technical_check_canonical urlPath url p) + applied (check_robots p) +
       applied (check_robots_txt rt) + applied (check_sitemap sm) +
       applied (technical_check_https url) + applied (check_redirects p) +
       applied (check_status_code p) + applied (check_language p) +
       applied (check_schema p))) = 100
  rw [applied_eq_zero _ h1, applied_eq_zero _ h2, applied_eq_zero _ h3,
    applied_eq_zero _ h4, applied_eq_zero _ h5, applied_eq_zero _ h6,
    applied_eq_zero _ h7, applied_eq_zero _ h8, applied_eq_zero _ h9]
  rfl

/-- C7: for both rule-based analyzers, a document model passing every check
scores 100, and no other input — in particular one failing one more check —
can score more. -/
theorem c7_monotonic :
    (∀ p q : PageData, (onpage_analyze p).checks = onpage_checks_all →
      (onpage_analyze q).score ≤ (onpage_analyze p).score) ∧
    (∀ (urlPathP urlPathQ : String → String) (rtP rtQ : HttpOutcome)
        (smP smQ : SitemapEnv) (urlP urlQ : String) (p q : PageData),
      (technical_analyze urlPathP rtP smP urlP p).checks = tech_checks_all →
      (technical_analyze urlPathQ rtQ smQ urlQ q).score ≤
        (technical_analyze urlPathP rtP smP urlP p).score) := by
  constructor
  · intro p q h
    rw [onpage_score_all_pass p h]
    exact onpage_score_le q
  · intro upP upQ rtP rtQ smP smQ urlP urlQ p q h
    rw [technical_score_all_pass upP rtP smP urlP p h]
    exact technical_score_le upQ rtQ smQ urlQ q

/-- A document model passing every on-page and technical check. -/
def pageAllPass : PageData :=
  { url := "https://example.com/page"
    status_code := some 200
    redirects := []
    title := some ⟨List.replicate 40 'a'⟩
    meta_description := some ⟨List.replicate 100 'b'⟩
    canonical := some "https://example.com/page"
    robots_meta := some "index, follow"
    viewport_meta := true
    og_tags := [("title", "t"), ("description", "d"), ("image", "i")]
    h1 := ["Main heading"]
    internal_links := ["https://example.com/a", "https://example.com/b"]
    images := []
    word_count := 500
    has_schema := true
    lang := some "en" }

/-- The same model with thin content (the contentLength check now fails). -/
def pageThinContent : PageData := { pageAllPass with word_count := 120 }

/-- The same model without structured data (structuredData now fails). -/
def pageNoSchema : PageData := { pageAllPass with has_schema := false }

theorem c7_monotonic_witness :
    (onpage_analyze pageThinContent).score ≤ (onpage_analyze pageAllPass).score ∧
    (technical_analyze (fun s => s) (HttpOutcome.resp 200 "")
        (SitemapEnv.probes (HttpOutcome.resp 200 "application/xml") HttpOutcome.err)
        "https://example.com/page" pageNoSchema).score ≤
      (technical_analyze (fun s => s) (HttpOutcome.resp 200 "")
        (SitemapEnv.probes (HttpOutcome.resp 200 "application/xml") HttpOutcome.err)
        "https://example.com/page" pageAllPass).score :=
  ⟨c7_monotonic.1 pageAllPass pageThinContent (by decide),
   c7_monotonic.2 (fun s => s) (fun s => s) (HttpOutcome.resp 200 "")
     (HttpOutcome.resp 200 "")
     (SitemapEnv.probes (HttpOutcome.resp 200 "application/xml") HttpOutcome.err)
     (SitemapEnv.probes (HttpOutcome.resp 200 "application/xml") HttpOutcome.err)
     "https://example.com/page" "https://example.com/page" pageAllPass pageNoSchema
     (by decide)⟩

/-! ## C8: canonical soft pass on path mismatch -/

/-- C8: a present canonical whose path differs from the requested URL's
path still records checks canonical = true and contributes a deduction of
0 to the technical score. -/
theorem c8_canonical_soft_pass (urlPath : String → String) (rt : HttpOutcome)
    (sm : SitemapEnv) (url : String) (page : PageData) (c : String)
    (hc : page.canonical = some c) (hne : pyStrTruthy c = true)
    (hpath : urlPath c ≠ urlPath url) :
    (technical_check_canonical urlPath url page).passed = true ∧
    applied (technical_check_canonical urlPath url page) = 0 ∧
    (technical_analyze urlPath rt sm url page).checks.canonical = true := by
  have hres : technical_check_canonical urlPath url page =
      { passed := true
        issue := some
          { ftype := .warning, code := some "canonical_mismatch"
            message := "Canonical URL (" ++ c ++ ") differs from current URL"
            recommendation := some "Verify this is intentional"
            impact := some "low" }
        deduction := 0 } := by
    unfold technical_check_canonical
    rw [hc]
    simp [pyTruthyOpt, hne, pyGetD, hpath]
  refine ⟨by rw [hres], by rw [hres]; rfl, ?_⟩
  show (technical_check_canonical urlPath url page).passed = true
  rw [hres]

/-- A page whose canonical path differs from the requested URL's path. -/
def pageCanonicalMismatch : PageData :=
  { url := "https://example.com/a"
    canonical := some "https://example.com/b" }

theorem c8_canonical_soft_pass_witness :
    (technical_check_canonical (fun s => s) "https://example.com/a"
      pageCanonicalMismatch).passed = true ∧
    applied (technical_check_canonical (fun s => s) "https://example.com/a"
      pageCanonicalMismatch) = 0 ∧
    (technical_analyze (fun s => s) HttpOutcome.err SitemapEnv.setupError
      "https://example.com/a" pageCanonicalMismatch).checks.canonical = true :=
  c8_canonical_soft_pass (fun s => s) HttpOutcome.err SitemapEnv.setupError
    "https://example.com/a" pageCanonicalMismatch "https://example.com/b"
    rfl (by decide) (by decide)

/-! ## C9: sitemap deductions -/

/-- C9 counterexample: when both sitemap requests fail at the network level
(the probe's network failure path) the per-request except clauses swallow
the errors and the check falls through to the 5-point missing_sitemap
result — not the 3-point one the claim states. -/
theorem c9_counterexample :
    (check_sitemap (SitemapEnv.probes HttpOutcome.err HttpOutcome.err)).passed = false ∧
    (check_sitemap (SitemapEnv.probes HttpOutcome.err HttpOutcome.err)).deduction = 5 := by
  constructor
  · rfl
  · rfl

/-- C9 (amended): the check deducts 5 whenever neither candidate URL yields
a 200 response with an XML content-type — including when the individual
requests themselves fail — and deducts 3 only when the surrounding probe
setup raises outside the per-request loop. -/
theorem c9_sitemap_deductions :
    (∀ first second : HttpOutcome,
      sitemap_ok first = false → sitemap_ok second = false →
      (check_sitemap (SitemapEnv.probes first second)).passed = false ∧
      (check_sitemap (SitemapEnv.probes first second)).deduction = 5) ∧
    ((check_sitemap SitemapEnv.setupError).passed = false ∧
      (check_sitemap SitemapEnv.setupError).deduction = 3) := by
  constructor
  · intro first second h1 h2
    simp [check_sitemap, h1, h2]
  · exact ⟨rfl, rfl⟩

theorem c9_sitemap_deductions_witness :
    (check_sitemap (SitemapEnv.probes HttpOutcome.err
      (HttpOutcome.resp 404 "text/html"))).passed = false ∧
    (check_sitemap (SitemapEnv.probes HttpOutcome.err
      (HttpOutcome.resp 404 "text/html"))).deduction = 5 :=
  c9_sitemap_deductions.1 HttpOutcome.err (HttpOutcome.resp 404 "text/html")
    (by decide) (by decide)

/-! ## C10: mobile score floor -/

/-- C10: for every document model the mobile score is at least 40 — the
four deductions total at most 20 + 15 + 10 + 15 = 60 — and the final
max(0, score) clamp never binds. -/
theorem c10_mobile_score_floor :
    ∀ (page : PageData) (performance : PerfReport),
      40 ≤ (calculate_mobile_score page performance).score ∧
      (calculate_mobile_score page performance).score = mobile_pre_score page := by
  intro page performance
  have h40 : 40 ≤ mobile_pre_score page := by
    unfold mobile_pre_score
    split_ifs <;> omega
  constructor
  · show 40 ≤ max 0 (mobile_pre_score page)
    omega
  · show max 0 (mobile_pre_score page) = mobile_pre_score page
    omega
